import Mathlib

/-!
Verification of the Hooting Yard migration pipeline tracker.

Shallow embedding of `hooting_yard_migration.state.episodes`,
`hooting_yard_migration.state.archive_org`, `hooting_yard_migration.state.youtube`
and `hooting_yard_migration.state_management.state_manager`.

Modelling conventions:
* Python `datetime` values are modelled by their ISO 8601 string representation;
  `isoformat` is the identity and `fromisoformat` is modelled as total on the
  strings produced by `isoformat` (library round-trip assumed).
  ISO strings are never empty, so truthiness tests on them are `≠ ""`.
* `pathlib.Path` values are modelled by their normalised string form `str(p)`,
  which is never the empty string (`str(Path("")) = "."`); a `Path` object is
  always truthy in Python.
* Python `dict` (insertion ordered, unique keys, in-place value mutation) is an
  association list; `dict.get` is `find?`, in-place mutation of the object held
  at a key is a pointwise map at that key.
* `datetime.now()` calls are passed in explicitly as a `now : String` argument.
* Python `float` metric fields are pure pass-through values in all code paths
  considered; they are modelled as `Option Rat`.
* Logging: the methods of `StateManager` return their new state together with
  the list of messages emitted through the module logger during the call
  (`StepOut.logs`); none of the embedded method bodies contains a logging call.
-/

/-- The `ProcessingStage` enum of `state/episodes.py`, members in declaration
order. -/
inductive ProcessingStage where
  | DISCOVERED
  | DOWNLOADING
  | DOWNLOADED
  | CONVERTING
  | CONVERTED
  | UPLOADING
  | UPLOADED
  | SCHEDULED
  | PUBLISHED
  | FAILED
  | SKIPPED
deriving DecidableEq, Repr

/-- The `.value` string of each `ProcessingStage` member. -/
def ProcessingStage.value : ProcessingStage → String
  | .DISCOVERED => "discovered"
  | .DOWNLOADING => "downloading"
  | .DOWNLOADED => "downloaded"
  | .CONVERTING => "converting"
  | .CONVERTED => "converted"
  | .UPLOADING => "uploading"
  | .UPLOADED => "uploaded"
  | .SCHEDULED => "scheduled"
  | .PUBLISHED => "published"
  | .FAILED => "failed"
  | .SKIPPED => "skipped"

/-- The enum constructor `ProcessingStage(s)`: looks a member up by its value
string, `ValueError` (here `none`) on an unrecognised tag. -/
def ProcessingStage.ofValue : String → Option ProcessingStage
  | "discovered" => some .DISCOVERED
  | "downloading" => some .DOWNLOADING
  | "downloaded" => some .DOWNLOADED
  | "converting" => some .CONVERTING
  | "converted" => some .CONVERTED
  | "uploading" => some .UPLOADING
  | "uploaded" => some .UPLOADED
  | "scheduled" => some .SCHEDULED
  | "published" => some .PUBLISHED
  | "failed" => some .FAILED
  | "skipped" => some .SKIPPED
  | _ => none

/-- Declaration index of a `ProcessingStage` member in the enum of
`state/episodes.py` (also the forward order of the spec's state machine on the
non-terminal states). -/
def ProcessingStage.rank : ProcessingStage → Nat
  | .DISCOVERED => 0
  | .DOWNLOADING => 1
  | .DOWNLOADED => 2
  | .CONVERTING => 3
  | .CONVERTED => 4
  | .UPLOADING => 5
  | .UPLOADED => 6
  | .SCHEDULED => 7
  | .PUBLISHED => 8
  | .FAILED => 9
  | .SKIPPED => 10

/-- One entry of `ProcessedEpisode.error_history`: the dict appended by
`ProcessedEpisode.add_error` in `state/episodes.py` (keys `timestamp`, `type`,
`message`, `traceback`, `stage`; the `stage` key holds a stage VALUE string). -/
structure ErrorEntry where
  timestamp : String
  type : String
  message : String
  traceback : Option String
  stage : String
deriving DecidableEq, Repr

/-- The `ProcessedEpisode` dataclass of `state/episodes.py` (the
PipelineRecord). -/
structure ProcessedEpisode where
  archive_identifier : String
  title : String
  date : String
  stage : ProcessingStage
  status_message : String
  audio_file : Option String
  video_file : Option String
  transcript_file : Option String
  thumbnail_file : Option String
  download_started : Option String
  download_completed : Option String
  conversion_started : Option String
  conversion_completed : Option String
  upload_started : Option String
  upload_completed : Option String
  youtube_video_id : Option String
  youtube_url : Option String
  scheduled_publish_date : Option String
  actual_publish_date : Option String
  audio_duration_seconds : Option Rat
  audio_size_bytes : Option Int
  video_size_bytes : Option Int
  processing_time_seconds : Option Rat
  last_updated : String
  retry_count : Nat
  error_history : List ErrorEntry
deriving DecidableEq, Repr

/-- A `ProcessedEpisode` as built by `StateManager.register_episode`: the
three identification fields and `stage=DISCOVERED` are passed explicitly, every
other field takes its dataclass default (`last_updated` defaults to
`datetime.now()`, passed here as `now`). -/
def ProcessedEpisode.fresh (identifier title date now : String) : ProcessedEpisode :=
  { archive_identifier := identifier
    title := title
    date := date
    stage := ProcessingStage.DISCOVERED
    status_message := ""
    audio_file := none
    video_file := none
    transcript_file := none
    thumbnail_file := none
    download_started := none
    download_completed := none
    conversion_started := none
    conversion_completed := none
    upload_started := none
    upload_completed := none
    youtube_video_id := none
    youtube_url := none
    scheduled_publish_date := none
    actual_publish_date := none
    audio_duration_seconds := none
    audio_size_bytes := none
    video_size_bytes := none
    processing_time_seconds := none
    last_updated := now
    retry_count := 0
    error_history := [] }

/-- `ProcessedEpisode.add_error` of `state/episodes.py`: appends one entry to
`error_history` recording the CURRENT value of `self.stage`, increments
`retry_count`, touches `last_updated`. -/
def ProcessedEpisode.add_error (ep : ProcessedEpisode) (now error_type error_message : String)
    (traceback : Option String) : ProcessedEpisode :=
  { ep with
    error_history := ep.error_history ++
      [{ timestamp := now
         type := error_type
         message := error_message
         traceback := traceback
         stage := ep.stage.value }]
    retry_count := ep.retry_count + 1
    last_updated := now }

/-- The `EpisodeState` collection of `state/episodes.py`: a Python dict from
`archive_identifier` to `ProcessedEpisode`, as an insertion-ordered association
list with unique keys. -/
structure EpisodeState where
  episodes : List (String × ProcessedEpisode)
deriving DecidableEq, Repr

/-- `EpisodeState.get_episode`: `self.episodes.get(archive_identifier)`. -/
def EpisodeState.get_episode (s : EpisodeState) (archive_identifier : String) :
    Option ProcessedEpisode :=
  (s.episodes.find? (fun kv => kv.1 = archive_identifier)).map Prod.snd

/-- `EpisodeState.add_episode`: `self.episodes[episode.archive_identifier] = episode`
(dict assignment: replace in place when the key is present, append otherwise). -/
def EpisodeState.add_episode (s : EpisodeState) (episode : ProcessedEpisode) : EpisodeState :=
  if s.episodes.any (fun kv => kv.1 = episode.archive_identifier) then
    ⟨s.episodes.map (fun kv =>
      if kv.1 = episode.archive_identifier then (kv.1, episode) else kv)⟩
  else
    ⟨s.episodes ++ [(episode.archive_identifier, episode)]⟩

/-- In-place mutation of the `ProcessedEpisode` object held at a key: the
Python methods fetch the object with `get_episode` and mutate its attributes,
which is visible through the dict without reassignment. -/
def EpisodeState.updateAt (s : EpisodeState) (archive_identifier : String)
    (f : ProcessedEpisode → ProcessedEpisode) : EpisodeState :=
  ⟨s.episodes.map (fun kv =>
    if kv.1 = archive_identifier then (kv.1, f kv.2) else kv)⟩

/-- `EpisodeState.get_episodes_by_stage`: filter of the dict values, in
iteration order. -/
def EpisodeState.get_episodes_by_stage (s : EpisodeState) (stage : ProcessingStage) :
    List ProcessedEpisode :=
  (s.episodes.map Prod.snd).filter (fun ep => ep.stage = stage)

/-- `EpisodeState.load_from_directory` of `state/episodes.py`, at the level of
the documents found under the store directory: each document is modelled by the
result of `ProcessedEpisode.load_from_yaml` on it (`none` for a file whose load
raises). The loop adds every successfully parsed episode to a fresh state and,
for each failing file, prints one error line and continues; the result is the
final state together with the number of error lines printed. -/
def EpisodeState.load_from_directory (docs : List (Option ProcessedEpisode)) :
    EpisodeState × Nat :=
  docs.foldl
    (fun acc doc =>
      match doc with
      | some episode => (acc.1.add_episode episode, acc.2)
      | none => (acc.1, acc.2 + 1))
    (⟨[]⟩, 0)

/-- The `ArchiveOrgEpisode` dataclass of `state/archive_org.py`, restricted to
the fields `StateManager.register_episode` reads; the remaining fields are
carried opaquely by the catalog view and never inspected by the operations
verified here. -/
structure ArchiveOrgEpisode where
  identifier : String
  title : String
  date : String
deriving DecidableEq, Repr

/-- The `ArchiveOrgState` collection of `state/archive_org.py`. -/
structure ArchiveOrgState where
  episodes : List (String × ArchiveOrgEpisode)
  total_episodes : Nat
deriving DecidableEq, Repr

/-- `ArchiveOrgState.add_episode`: dict assignment keyed by `identifier`, then
`total_episodes = len(self.episodes)`. -/
def ArchiveOrgState.add_episode (s : ArchiveOrgState) (episode : ArchiveOrgEpisode) :
    ArchiveOrgState :=
  let eps :=
    if s.episodes.any (fun kv => kv.1 = episode.identifier) then
      s.episodes.map (fun kv =>
        if kv.1 = episode.identifier then (kv.1, episode) else kv)
    else
      s.episodes ++ [(episode.identifier, episode)]
  { episodes := eps, total_episodes := eps.length }

/-- The `YouTubeVideo` dataclass of `state/youtube.py`, restricted to the
three fields `StateManager.mark_uploaded` passes to its constructor; the
remaining fields take dataclass defaults and are never inspected here. -/
structure YouTubeVideo where
  archive_identifier : String
  youtube_video_id : String
  title : String
deriving DecidableEq, Repr

/-- The `YouTubeState` collection of `state/youtube.py`. -/
structure YouTubeState where
  videos : List (String × YouTubeVideo)
deriving DecidableEq, Repr

/-- `YouTubeState.add_video`: dict assignment keyed by `archive_identifier`. -/
def YouTubeState.add_video (s : YouTubeState) (video : YouTubeVideo) : YouTubeState :=
  if s.videos.any (fun kv => kv.1 = video.archive_identifier) then
    ⟨s.videos.map (fun kv =>
      if kv.1 = video.archive_identifier then (kv.1, video) else kv)⟩
  else
    ⟨s.videos ++ [(video.archive_identifier, video)]⟩

/-- The in-memory state owned by `StateManager` in
`state_management/state_manager.py`: one instance of each of the three views.
File persistence (`save_to_yaml`, `save_index`) is modelled separately through
`to_yaml_dict`/`from_yaml_dict` below. -/
structure StateManager where
  archive_state : ArchiveOrgState
  episode_state : EpisodeState
  youtube_state : YouTubeState
deriving DecidableEq, Repr

/-- A `StateManager` over an empty store directory: all three views load
empty. -/
def StateManager.empty : StateManager :=
  { archive_state := { episodes := [], total_episodes := 0 }
    episode_state := ⟨[]⟩
    youtube_state := ⟨[]⟩ }

/-- Result of one `StateManager` method call: the new in-memory state and the
messages emitted through the module logger during the call (none of the
embedded method bodies contains a logging call). -/
structure StepOut where
  state : StateManager
  logs : List String
deriving DecidableEq, Repr

/-- `StateManager.register_episode`: adds the archive episode to the catalog
view unconditionally, then creates a DISCOVERED `ProcessedEpisode` only if
`get_episode` finds none for the identifier. -/
def StateManager.register_episode (sm : StateManager) (archive_episode : ArchiveOrgEpisode)
    (now : String) : StateManager :=
  let sm1 := { sm with archive_state := sm.archive_state.add_episode archive_episode }
  match sm1.episode_state.get_episode archive_episode.identifier with
  | some _ => sm1
  | none =>
      let processed_episode := ProcessedEpisode.fresh archive_episode.identifier
        archive_episode.title archive_episode.date now
      { sm1 with episode_state := sm1.episode_state.add_episode processed_episode }

/-- `StateManager.mark_downloaded`: if the identifier has a record, set its
`audio_file`, `stage=DOWNLOADED` and status message; otherwise do nothing. -/
def StateManager.mark_downloaded (sm : StateManager) (identifier file_path : String) : StepOut :=
  match sm.episode_state.get_episode identifier with
  | some _ =>
      { state := { sm with episode_state := sm.episode_state.updateAt identifier (fun ep =>
          { ep with
            audio_file := some file_path
            stage := ProcessingStage.DOWNLOADED
            status_message := "Download completed" }) }
        logs := [] }
  | none => { state := sm, logs := [] }

/-- `StateManager.mark_converted`: if the identifier has a record, set its
`video_file`, `stage=CONVERTED` and status message; otherwise do nothing. -/
def StateManager.mark_converted (sm : StateManager) (identifier video_path : String) : StepOut :=
  match sm.episode_state.get_episode identifier with
  | some _ =>
      { state := { sm with episode_state := sm.episode_state.updateAt identifier (fun ep =>
          { ep with
            video_file := some video_path
            stage := ProcessingStage.CONVERTED
            status_message := "Conversion completed" }) }
        logs := [] }
  | none => { state := sm, logs := [] }

/-- `StateManager.mark_uploaded`: if the identifier has a record, set its
`youtube_video_id`, `stage=PUBLISHED` and status message, and add a
`YouTubeVideo` entry to the publication view; otherwise do nothing. -/
def StateManager.mark_uploaded (sm : StateManager) (identifier video_id : String) : StepOut :=
  match sm.episode_state.get_episode identifier with
  | some ep =>
      let sm2 := { sm with episode_state := sm.episode_state.updateAt identifier (fun e =>
          { e with
            youtube_video_id := some video_id
            stage := ProcessingStage.PUBLISHED
            status_message := "Upload completed" }) }
      let youtube_video : YouTubeVideo :=
        { archive_identifier := identifier
          youtube_video_id := video_id
          title := ep.title }
      { state := { sm2 with youtube_state := sm2.youtube_state.add_video youtube_video }
        logs := [] }
  | none => { state := sm, logs := [] }

/-- `StateManager.mark_failed`: if the identifier has a record, set
`stage=FAILED` FIRST and then call `add_error("ProcessingError", message)`;
otherwise do nothing. -/
def StateManager.mark_failed (sm : StateManager) (identifier now error_message : String) :
    StepOut :=
  match sm.episode_state.get_episode identifier with
  | some _ =>
      { state := { sm with episode_state := sm.episode_state.updateAt identifier (fun ep =>
          ProcessedEpisode.add_error { ep with stage := ProcessingStage.FAILED }
            now "ProcessingError" error_message none) }
        logs := [] }
  | none => { state := sm, logs := [] }

/-- Python truthiness of an `Optional[int]` argument: `None` and `0` are
falsy. -/
def intTruthy : Option Nat → Bool
  | none => false
  | some n => n != 0

/-- Python truthiness of an `Optional[str]` argument: `None` and `""` are
falsy. -/
def strTruthy : Option String → Bool
  | none => false
  | some s => s != ""

/-- `StateManager.get_pending_downloads`: DISCOVERED episodes, optionally
filtered by an inclusive ISO date window, then truncated by `episodes[:limit]`
only when `limit` is truthy. Comparison of `datetime` values is lexicographic
comparison of their ISO strings. -/
def StateManager.get_pending_downloads (sm : StateManager) (limit : Option Nat)
    (start_date end_date : Option String) : List ProcessedEpisode :=
  let episodes := sm.episode_state.get_episodes_by_stage ProcessingStage.DISCOVERED
  let episodes :=
    if strTruthy start_date then
      episodes.filter (fun ep => decide (start_date.getD "" ≤ ep.date))
    else episodes
  let episodes :=
    if strTruthy end_date then
      episodes.filter (fun ep => decide (ep.date ≤ end_date.getD ""))
    else episodes
  if intTruthy limit then episodes.take (limit.getD 0) else episodes

/-- `StateManager.get_pending_conversions`: DOWNLOADED episodes, truncated by
`episodes[:limit]` only when `limit` is truthy. -/
def StateManager.get_pending_conversions (sm : StateManager) (limit : Option Nat) :
    List ProcessedEpisode :=
  let episodes := sm.episode_state.get_episodes_by_stage ProcessingStage.DOWNLOADED
  if intTruthy limit then episodes.take (limit.getD 0) else episodes

/-- `StateManager.get_pending_uploads`: CONVERTED episodes, truncated by
`episodes[:limit]` only when `limit` is truthy. -/
def StateManager.get_pending_uploads (sm : StateManager) (limit : Option Nat) :
    List ProcessedEpisode :=
  let episodes := sm.episode_state.get_episodes_by_stage ProcessingStage.CONVERTED
  if intTruthy limit then episodes.take (limit.getD 0) else episodes

/-- The dict returned by `StateManager.get_statistics`, one field per key. -/
structure Statistics where
  total : Nat
  discovered : Nat
  downloaded : Nat
  converted : Nat
  uploaded : Nat
  failed : Nat
  pending_downloads : Nat
  pending_conversions : Nat
  pending_uploads : Nat
deriving DecidableEq, Repr

/-- `StateManager.get_statistics`: per-stage counts ("uploaded" counts the
PUBLISHED stage) plus pending counts copied from the discovered, downloaded and
converted counts. -/
def StateManager.get_statistics (sm : StateManager) : Statistics :=
  let discovered := (sm.episode_state.get_episodes_by_stage ProcessingStage.DISCOVERED).length
  let downloaded := (sm.episode_state.get_episodes_by_stage ProcessingStage.DOWNLOADED).length
  let converted := (sm.episode_state.get_episodes_by_stage ProcessingStage.CONVERTED).length
  { total := sm.episode_state.episodes.length
    discovered := discovered
    downloaded := downloaded
    converted := converted
    uploaded := (sm.episode_state.get_episodes_by_stage ProcessingStage.PUBLISHED).length
    failed := (sm.episode_state.get_episodes_by_stage ProcessingStage.FAILED).length
    pending_downloads := discovered
    pending_conversions := downloaded
    pending_uploads := converted }

/-- The `identification` sub-dict of `ProcessedEpisode.to_yaml_dict`. -/
structure YamlIdentification where
  archive_identifier : String
  title : String
  date : String
deriving DecidableEq, Repr

/-- The `status` sub-dict of `ProcessedEpisode.to_yaml_dict`. -/
structure YamlStatus where
  stage : String
  message : String
  last_updated : String
  retry_count : Nat
deriving DecidableEq, Repr

/-- The `files` sub-dict of `ProcessedEpisode.to_yaml_dict`. -/
structure YamlFiles where
  audio : Option String
  video : Option String
  transcript : Option String
  thumbnail : Option String
deriving DecidableEq, Repr

/-- The `processing_times` sub-dict of `ProcessedEpisode.to_yaml_dict`. -/
structure YamlTimes where
  download_started : Option String
  download_completed : Option String
  conversion_started : Option String
  conversion_completed : Option String
  upload_started : Option String
  upload_completed : Option String
deriving DecidableEq, Repr

/-- The `youtube` sub-dict of `ProcessedEpisode.to_yaml_dict`. -/
structure YamlYoutube where
  video_id : Option String
  url : Option String
  scheduled_publish : Option String
  actual_publish : Option String
deriving DecidableEq, Repr

/-- The `metrics` sub-dict of `ProcessedEpisode.to_yaml_dict`. -/
structure YamlMetrics where
  audio_duration_seconds : Option Rat
  audio_size_bytes : Option Int
  video_size_bytes : Option Int
  processing_time_seconds : Option Rat
deriving DecidableEq, Repr

/-- The document produced by `ProcessedEpisode.to_yaml_dict` (and accepted by
`from_yaml_dict`; a document written by `save_to_yaml` always carries every
key, so the `.get` defaults of `from_yaml_dict` never fire on it). -/
structure EpisodeYaml where
  identification : YamlIdentification
  status : YamlStatus
  files : YamlFiles
  processing_times : YamlTimes
  youtube : YamlYoutube
  metrics : YamlMetrics
  errors : List ErrorEntry
deriving DecidableEq, Repr

/-- `ProcessedEpisode.to_yaml_dict`: `stage` is serialized as its value string,
datetimes as their ISO strings (identity in this model), paths as `str(p)`
guarded by the always-true truthiness of a `Path` object (identity on
`Option String` here), and `error_history` verbatim under `errors`. -/
def ProcessedEpisode.to_yaml_dict (ep : ProcessedEpisode) : EpisodeYaml :=
  { identification :=
      { archive_identifier := ep.archive_identifier
        title := ep.title
        date := ep.date }
    status :=
      { stage := ep.stage.value
        message := ep.status_message
        last_updated := ep.last_updated
        retry_count := ep.retry_count }
    files :=
      { audio := ep.audio_file
        video := ep.video_file
        transcript := ep.transcript_file
        thumbnail := ep.thumbnail_file }
    processing_times :=
      { download_started := ep.download_started
        download_completed := ep.download_completed
        conversion_started := ep.conversion_started
        conversion_completed := ep.conversion_completed
        upload_started := ep.upload_started
        upload_completed := ep.upload_completed }
    youtube :=
      { video_id := ep.youtube_video_id
        url := ep.youtube_url
        scheduled_publish := ep.scheduled_publish_date
        actual_publish := ep.actual_publish_date }
    metrics :=
      { audio_duration_seconds := ep.audio_duration_seconds
        audio_size_bytes := ep.audio_size_bytes
        video_size_bytes := ep.video_size_bytes
        processing_time_seconds := ep.processing_time_seconds }
    errors := ep.error_history }

/-- The pattern `f(d[k]) if d.get(k) else None` of `from_yaml_dict`, for a
field whose parser is modelled as the identity: the stored string is kept only
when truthy. -/
def optTruthy : Option String → Option String
  | none => none
  | some s => if s = "" then none else some s

/-- `ProcessedEpisode.from_yaml_dict`: rebuilds the record from a document;
the stage tag goes through the `ProcessingStage` constructor, which raises
(`none`) on an unrecognised tag; string-valued optional fields go through the
truthiness guard `optTruthy`. -/
def ProcessedEpisode.from_yaml_dict (data : EpisodeYaml) : Option ProcessedEpisode :=
  match ProcessingStage.ofValue data.status.stage with
  | none => none
  | some stage =>
      some
        { archive_identifier := data.identification.archive_identifier
          title := data.identification.title
          date := data.identification.date
          stage := stage
          status_message := data.status.message
          last_updated := data.status.last_updated
          retry_count := data.status.retry_count
          audio_file := optTruthy data.files.audio
          video_file := optTruthy data.files.video
          transcript_file := optTruthy data.files.transcript
          thumbnail_file := optTruthy data.files.thumbnail
          download_started := optTruthy data.processing_times.download_started
          download_completed := optTruthy data.processing_times.download_completed
          conversion_started := optTruthy data.processing_times.conversion_started
          conversion_completed := optTruthy data.processing_times.conversion_completed
          upload_started := optTruthy data.processing_times.upload_started
          upload_completed := optTruthy data.processing_times.upload_completed
          youtube_video_id := data.youtube.video_id
          youtube_url := data.youtube.url
          scheduled_publish_date := optTruthy data.youtube.scheduled_publish
          actual_publish_date := optTruthy data.youtube.actual_publish
          audio_duration_seconds := data.metrics.audio_duration_seconds
          audio_size_bytes := data.metrics.audio_size_bytes
          video_size_bytes := data.metrics.video_size_bytes
          processing_time_seconds := data.metrics.processing_time_seconds
          error_history := data.errors }

/-- One tracker mutation operation of `StateManager`, with its per-operation
arguments. -/
inductive MutOp where
  | markDownloaded (file_path : String)
  | markConverted (video_path : String)
  | markUploaded (video_id : String)
  | markFailed (now error_message : String)
deriving DecidableEq, Repr

/-- Dispatch of a `MutOp` to the corresponding `StateManager` method. -/
def MutOp.apply (op : MutOp) (sm : StateManager) (identifier : String) : StepOut :=
  match op with
  | .markDownloaded file_path => sm.mark_downloaded identifier file_path
  | .markConverted video_path => sm.mark_converted identifier video_path
  | .markUploaded video_id => sm.mark_uploaded identifier video_id
  | .markFailed now error_message => sm.mark_failed identifier now error_message

/-- The stage each `MutOp` writes into the record it acts on. -/
def MutOp.target : MutOp → ProcessingStage
  | .markDownloaded _ => ProcessingStage.DOWNLOADED
  | .markConverted _ => ProcessingStage.CONVERTED
  | .markUploaded _ => ProcessingStage.PUBLISHED
  | .markFailed _ _ => ProcessingStage.FAILED

section StoreLemmas

/-- Looking a key up after a pointwise update at that key sees the updated
value. -/
theorem List.find?_map_updateKey (l : List (String × ProcessedEpisode)) (identifier : String)
    (f : ProcessedEpisode → ProcessedEpisode) :
    (l.map (fun kv => if kv.1 = identifier then (kv.1, f kv.2) else kv)).find?
        (fun kv => kv.1 = identifier) =
      (l.find? (fun kv => kv.1 = identifier)).map (fun kv => (kv.1, f kv.2)) := by
  induction l with
  | nil => rfl
  | cons kv tl ih =>
      by_cases h : kv.1 = identifier
      · simp [List.find?_cons, h]
      · simp [List.find?_cons, h, ih]

/-- `get_episode` after `updateAt` at the same key. -/
theorem EpisodeState.get_episode_updateAt (s : EpisodeState) (identifier : String)
    (f : ProcessedEpisode → ProcessedEpisode) :
    (s.updateAt identifier f).get_episode identifier =
      (s.get_episode identifier).map f := by
  simp only [EpisodeState.updateAt, EpisodeState.get_episode]
  rw [List.find?_map_updateKey]
  cases s.episodes.find? (fun kv => kv.1 = identifier) <;> rfl

end StoreLemmas

section RegisterLemmas

/-- Replacing the value at a key that is present in the list makes lookup see
the replacement. -/
theorem List.find?_map_replaceKey (l : List (String × ProcessedEpisode)) (identifier : String)
    (ep : ProcessedEpisode) (h : l.any (fun kv => kv.1 = identifier) = true) :
    ((l.map (fun kv => if kv.1 = identifier then (kv.1, ep) else kv)).find?
        (fun kv => kv.1 = identifier)).map Prod.snd = some ep := by
  induction l with
  | nil => simp at h
  | cons kv tl ih =>
      rw [List.map_cons]
      by_cases hk : kv.1 = identifier
      · rw [if_pos hk, List.find?_cons_of_pos _ (by simpa using hk)]
        rfl
      · rw [if_neg hk, List.find?_cons_of_neg _ (by simpa using hk)]
        have h2 : (tl.any fun kv => kv.1 = identifier) = true := by
          simpa [hk] using h
        exact ih h2

/-- Appending a binding for a key absent from the list makes lookup find the
appended binding. -/
theorem List.find?_append_newKey (l : List (String × ProcessedEpisode)) (identifier : String)
    (ep : ProcessedEpisode) (h : l.any (fun kv => kv.1 = identifier) = false) :
    (l ++ [(identifier, ep)]).find? (fun kv => kv.1 = identifier) = some (identifier, ep) := by
  induction l with
  | nil => simp [List.find?_cons]
  | cons kv tl ih =>
      simp only [List.any_cons, Bool.or_eq_false_iff, decide_eq_false_iff_not] at h
      simp [List.find?_cons, h.1, ih (by simpa using h.2)]

/-- After `add_episode`, lookup at the episode's key returns that episode. -/
theorem EpisodeState.get_episode_add_episode (s : EpisodeState) (ep : ProcessedEpisode) :
    (s.add_episode ep).get_episode ep.archive_identifier = some ep := by
  obtain ⟨l⟩ := s
  simp only [EpisodeState.add_episode, EpisodeState.get_episode]
  cases hb : l.any (fun kv => kv.1 = ep.archive_identifier) with
  | true =>
      rw [if_pos rfl]
      exact List.find?_map_replaceKey l ep.archive_identifier ep hb
  | false =>
      rw [if_neg (by simp)]
      rw [List.find?_append_newKey l ep.archive_identifier ep hb]
      rfl

end RegisterLemmas

/-- Claim C1: registration is idempotent on the pipeline tracker. When a record
already exists for the identifier, `register_episode` leaves the episode store
— and hence the existing record's stage, retry count, artifact paths, title and
date — entirely unchanged, even when the incoming archive episode carries a
different title or date; and when no record exists, a fresh record at stage
DISCOVERED (with zero retries and no artifacts) is created for the
identifier. -/
theorem register_episode_idempotent (sm : StateManager) (ae : ArchiveOrgEpisode) (now : String) :
    (∀ ep, sm.episode_state.get_episode ae.identifier = some ep →
      (sm.register_episode ae now).episode_state = sm.episode_state)
    ∧ (sm.episode_state.get_episode ae.identifier = none →
      (sm.register_episode ae now).episode_state.get_episode ae.identifier =
        some (ProcessedEpisode.fresh ae.identifier ae.title ae.date now)) := by
  constructor
  · intro ep h
    simp [StateManager.register_episode, h]
  · intro h
    simp only [StateManager.register_episode, h]
    exact EpisodeState.get_episode_add_episode sm.episode_state
      (ProcessedEpisode.fresh ae.identifier ae.title ae.date now)

/-- Witness for claim C1: registering the same identifier a second time with a
different title and date leaves the episode store unchanged, and the first
registration created the DISCOVERED record. -/
theorem register_episode_idempotent_witness :
    (StateManager.empty.register_episode ⟨"ep-2004-01-01", "A", "2004-01-01"⟩
        "t0").episode_state.get_episode "ep-2004-01-01" =
      some (ProcessedEpisode.fresh "ep-2004-01-01" "A" "2004-01-01" "t0")
    ∧ ((StateManager.empty.register_episode ⟨"ep-2004-01-01", "A", "2004-01-01"⟩
          "t0").register_episode ⟨"ep-2004-01-01", "B", "2005-02-02"⟩ "t1").episode_state =
      (StateManager.empty.register_episode ⟨"ep-2004-01-01", "A", "2004-01-01"⟩
        "t0").episode_state :=
  ⟨(register_episode_idempotent StateManager.empty ⟨"ep-2004-01-01", "A", "2004-01-01"⟩ "t0").2
      rfl,
   (register_episode_idempotent _ ⟨"ep-2004-01-01", "B", "2005-02-02"⟩ "t1").1
      (ProcessedEpisode.fresh "ep-2004-01-01" "A" "2004-01-01" "t0")
      ((register_episode_idempotent StateManager.empty ⟨"ep-2004-01-01", "A", "2004-01-01"⟩
        "t0").2 rfl)⟩

/-- A pipeline record that has reached stage PUBLISHED. -/
def publishedExample : ProcessedEpisode :=
  { ProcessedEpisode.fresh "ep-a" "A" "2004-01-01" "t0" with
    stage := ProcessingStage.PUBLISHED }

/-- A state manager whose store holds exactly one record, at stage
PUBLISHED. -/
def smPublished : StateManager :=
  { StateManager.empty with episode_state := ⟨[("ep-a", publishedExample)]⟩ }

/-- Counterexample to claim C2: `mark_downloaded` applied to a record at stage
PUBLISHED moves its stage backward to DOWNLOADED — the mutation operations test
only that the identifier has a record, never the current stage, so a record's
stage can regress. -/
theorem mark_downloaded_regresses_published :
    ((smPublished.mark_downloaded "ep-a" "/x/a.mp3").state.episode_state.get_episode
        "ep-a").map ProcessedEpisode.stage = some ProcessingStage.DOWNLOADED
    ∧ ProcessingStage.DOWNLOADED.rank < ProcessingStage.PUBLISHED.rank := by
  constructor
  · rfl
  · decide

/-- Claim C2 (amended): each tracker mutation operation unconditionally sets an
existing record's stage to the operation's own target stage (DOWNLOADED,
CONVERTED, PUBLISHED or FAILED) — last write wins, with no guard on the current
stage. Stages therefore move only forward under the driver's in-order call
sequence, but an out-of-order call regresses the stage rather than being
rejected. -/
theorem mutation_sets_target_stage (sm : StateManager) (identifier : String) (op : MutOp)
    (ep : ProcessedEpisode) (h : sm.episode_state.get_episode identifier = some ep) :
    ((op.apply sm identifier).state.episode_state.get_episode identifier).map
        ProcessedEpisode.stage = some op.target := by
  cases op with
  | markDownloaded file_path =>
      simp only [MutOp.apply, StateManager.mark_downloaded, h, MutOp.target]
      rw [EpisodeState.get_episode_updateAt, h]
      rfl
  | markConverted video_path =>
      simp only [MutOp.apply, StateManager.mark_converted, h, MutOp.target]
      rw [EpisodeState.get_episode_updateAt, h]
      rfl
  | markUploaded video_id =>
      simp only [MutOp.apply, StateManager.mark_uploaded, h, MutOp.target]
      rw [EpisodeState.get_episode_updateAt, h]
      rfl
  | markFailed now error_message =>
      simp only [MutOp.apply, StateManager.mark_failed, h, MutOp.target]
      rw [EpisodeState.get_episode_updateAt, h]
      rfl

/-- Witness for claim C2 (amended): applying `mark_converted` to the PUBLISHED
record sets its stage to CONVERTED. -/
theorem mutation_sets_target_stage_witness :
    (((MutOp.markConverted "/x/v.mp4").apply smPublished "ep-a").state.episode_state.get_episode
        "ep-a").map ProcessedEpisode.stage = some ProcessingStage.CONVERTED :=
  mutation_sets_target_stage smPublished "ep-a" (MutOp.markConverted "/x/v.mp4")
    publishedExample rfl

/-- The record update `mark_failed` performs on the found episode: stage is set
to FAILED first, then `add_error` appends the entry. -/
def failUpdate (ep : ProcessedEpisode) (now error_message : String) : ProcessedEpisode :=
  ProcessedEpisode.add_error { ep with stage := ProcessingStage.FAILED }
    now "ProcessingError" error_message none

/-- Characterisation of `mark_failed` on a known record. -/
theorem mark_failed_get (sm : StateManager) (identifier now error_message : String)
    (ep : ProcessedEpisode) (h : sm.episode_state.get_episode identifier = some ep) :
    (sm.mark_failed identifier now error_message).state.episode_state.get_episode identifier =
      some (failUpdate ep now error_message) := by
  simp only [StateManager.mark_failed, h]
  rw [EpisodeState.get_episode_updateAt, h]
  rfl

/-- Claim C3: failure bookkeeping. One `mark_failed` call on a registered
identifier appends exactly one entry to `error_history`, increments
`retry_count` by exactly one (so it never decreases) and sets the stage to
FAILED; consequently, starting from a freshly registered record (zero retries,
empty history), three successive calls leave `retry_count = 3` and three
history entries, with the stage equal to FAILED after each of the three
calls. -/
theorem mark_failed_bookkeeping (sm : StateManager) (identifier : String)
    (ep : ProcessedEpisode) (h : sm.episode_state.get_episode identifier = some ep)
    (n1 m1 n2 m2 n3 m3 : String) :
    (∃ ep1,
      (sm.mark_failed identifier n1 m1).state.episode_state.get_episode identifier = some ep1
      ∧ ep1.stage = ProcessingStage.FAILED
      ∧ ep1.retry_count = ep.retry_count + 1
      ∧ ep1.error_history =
          ep.error_history ++ [⟨n1, "ProcessingError", m1, none, ProcessingStage.FAILED.value⟩])
    ∧ (ep.retry_count = 0 → ep.error_history = [] →
      ∃ ep1 ep2 ep3,
        (sm.mark_failed identifier n1 m1).state.episode_state.get_episode identifier = some ep1
        ∧ ep1.stage = ProcessingStage.FAILED ∧ ep1.retry_count = 1
          ∧ ep1.error_history.length = 1
        ∧ ((sm.mark_failed identifier n1 m1).state.mark_failed identifier n2
            m2).state.episode_state.get_episode identifier = some ep2
        ∧ ep2.stage = ProcessingStage.FAILED ∧ ep2.retry_count = 2
          ∧ ep2.error_history.length = 2
        ∧ (((sm.mark_failed identifier n1 m1).state.mark_failed identifier n2
            m2).state.mark_failed identifier n3 m3).state.episode_state.get_episode identifier =
            some ep3
        ∧ ep3.stage = ProcessingStage.FAILED ∧ ep3.retry_count = 3
          ∧ ep3.error_history.length = 3) := by
  have h1 := mark_failed_get sm identifier n1 m1 ep h
  have h2 := mark_failed_get _ identifier n2 m2 _ h1
  have h3 := mark_failed_get _ identifier n3 m3 _ h2
  refine ⟨⟨failUpdate ep n1 m1, h1, rfl, rfl, rfl⟩, ?_⟩
  intro hr he
  refine ⟨failUpdate ep n1 m1, failUpdate (failUpdate ep n1 m1) n2 m2,
    failUpdate (failUpdate (failUpdate ep n1 m1) n2 m2) n3 m3,
    h1, rfl, ?_, ?_, h2, rfl, ?_, ?_, h3, rfl, ?_, ?_⟩ <;>
    simp [failUpdate, ProcessedEpisode.add_error, hr, he]

/-- A state manager holding exactly one freshly registered record. -/
def smOne : StateManager :=
  StateManager.empty.register_episode ⟨"ep-2004-01-01", "A", "2004-01-01"⟩ "t0"

/-- Witness for claim C3: three `mark_failed` calls on the one freshly
registered record give stage FAILED, `retry_count = 3` and three history
entries. -/
theorem mark_failed_bookkeeping_witness :
    ∃ ep3,
      (((smOne.mark_failed "ep-2004-01-01" "t1" "m1").state.mark_failed "ep-2004-01-01" "t2"
          "m2").state.mark_failed "ep-2004-01-01" "t3"
          "m3").state.episode_state.get_episode "ep-2004-01-01" = some ep3
      ∧ ep3.stage = ProcessingStage.FAILED
      ∧ ep3.retry_count = 3
      ∧ ep3.error_history.length = 3 := by
  obtain ⟨-, htriple⟩ := mark_failed_bookkeeping smOne "ep-2004-01-01"
    (ProcessedEpisode.fresh "ep-2004-01-01" "A" "2004-01-01" "t0") rfl "t1" "m1" "t2" "m2" "t3" "m3"
  obtain ⟨ep1, ep2, ep3, -, -, -, -, -, -, -, -, hg3, hs3, hr3, hl3⟩ := htriple rfl rfl
  exact ⟨ep3, hg3, hs3, hr3, hl3⟩

/-- The one-record store after `mark_downloaded` with path "/x/a.mp3". -/
def smDownloaded : StateManager :=
  (smOne.mark_downloaded "ep-2004-01-01" "/x/a.mp3").state

/-- The record held by `smDownloaded`: freshly registered, then marked
downloaded. -/
def epDownloaded : ProcessedEpisode :=
  { ProcessedEpisode.fresh "ep-2004-01-01" "A" "2004-01-01" "t0" with
    audio_file := some "/x/a.mp3"
    stage := ProcessingStage.DOWNLOADED
    status_message := "Download completed" }

/-- Claim C4, evaluated at the failing input: for the record at stage
DOWNLOADED, the error entry appended by `mark_failed` carries the stage value
"failed" — not "downloaded", the stage the record was in when the failure
occurred — because `mark_failed` overwrites `stage` with FAILED before
`add_error` reads it. (The sibling implementation
`state/models.py:EpisodeState.add_error` records the stage before setting
FAILED, which is what the claim describes.) -/
theorem mark_failed_entry_records_failed_stage :
    (((smDownloaded.mark_failed "ep-2004-01-01" "t2" "disk full").state.episode_state.get_episode
        "ep-2004-01-01").map (fun ep => ep.error_history.map ErrorEntry.stage)) =
      some [ProcessingStage.FAILED.value]
    ∧ ProcessingStage.FAILED.value ≠ ProcessingStage.DOWNLOADED.value := by
  constructor
  · rfl
  · decide

/-- Claim C5: `mark_failed` never touches the artifact path fields — the
record after the call has the same `audio_file`, `video_file`,
`transcript_file` and `thumbnail_file` as before. -/
theorem mark_failed_preserves_artifacts (sm : StateManager)
    (identifier now error_message : String) (ep : ProcessedEpisode)
    (h : sm.episode_state.get_episode identifier = some ep) :
    ∃ ep1,
      (sm.mark_failed identifier now error_message).state.episode_state.get_episode identifier =
        some ep1
      ∧ ep1.audio_file = ep.audio_file
      ∧ ep1.video_file = ep.video_file
      ∧ ep1.transcript_file = ep.transcript_file
      ∧ ep1.thumbnail_file = ep.thumbnail_file :=
  ⟨failUpdate ep now error_message, mark_failed_get sm identifier now error_message ep h,
    rfl, rfl, rfl, rfl⟩

/-- Witness for claim C5: the record downloaded to "/x/a.mp3" and then marked
failed still has `audio_file = "/x/a.mp3"`. -/
theorem mark_failed_preserves_artifacts_witness :
    ∃ ep1,
      (smDownloaded.mark_failed "ep-2004-01-01" "t2"
          "disk full").state.episode_state.get_episode "ep-2004-01-01" = some ep1
      ∧ ep1.audio_file = some "/x/a.mp3" := by
  obtain ⟨ep1, hg, ha, -, -, -⟩ := mark_failed_preserves_artifacts smDownloaded
    "ep-2004-01-01" "t2" "disk full" epDownloaded rfl
  exact ⟨ep1, hg, ha.trans rfl⟩

/-- Counterexample to claim C6: a tracker mutation on an identifier with no
record leaves the store unchanged but emits NO logged warning — the no-op
branches of the four mutation methods contain no logging call at all, so the
claimed warning is never produced. -/
theorem unknown_identifier_silent :
    (smOne.mark_downloaded "no-such-episode" "/p").logs = []
    ∧ (smOne.mark_converted "no-such-episode" "/v").logs = []
    ∧ (smOne.mark_uploaded "no-such-episode" "vid").logs = []
    ∧ (smOne.mark_failed "no-such-episode" "t" "m").logs = []
    ∧ (smOne.mark_downloaded "no-such-episode" "/p").state = smOne :=
  ⟨rfl, rfl, rfl, rfl, rfl⟩

/-- Claim C6 (amended): for an identifier with no record, every tracker
mutation operation is a SILENT no-op — it never raises, leaves the whole state
(pipeline store, catalog view and publication view) unchanged, and emits no
log message, warning or otherwise. -/
theorem unknown_identifier_noop (sm : StateManager) (identifier : String) (op : MutOp)
    (h : sm.episode_state.get_episode identifier = none) :
    (op.apply sm identifier).state = sm ∧ (op.apply sm identifier).logs = [] := by
  cases op <;>
    simp [MutOp.apply, StateManager.mark_downloaded, StateManager.mark_converted,
      StateManager.mark_uploaded, StateManager.mark_failed, h]

/-- Witness for claim C6 (amended): `mark_failed` on an unknown identifier
returns the state unchanged with no log output. -/
theorem unknown_identifier_noop_witness :
    ((MutOp.markFailed "t" "m").apply smOne "no-such-episode").state = smOne
    ∧ ((MutOp.markFailed "t" "m").apply smOne "no-such-episode").logs = [] :=
  unknown_identifier_noop smOne "no-such-episode" (MutOp.markFailed "t" "m") rfl

section LoadLemmas

/-- The loop body of `load_from_directory`, named for the induction. -/
def loadStep (acc : EpisodeState × Nat) (doc : Option ProcessedEpisode) : EpisodeState × Nat :=
  match doc with
  | some episode => (acc.1.add_episode episode, acc.2)
  | none => (acc.1, acc.2 + 1)

/-- `load_from_directory` is the fold of `loadStep` from the empty state. -/
theorem load_from_directory_eq_foldl (docs : List (Option ProcessedEpisode)) :
    EpisodeState.load_from_directory docs = docs.foldl loadStep (⟨[]⟩, 0) := rfl

/-- A key absent from the key column fails every key test. -/
theorem any_key_eq_false_of_not_mem (l : List (String × ProcessedEpisode)) (identifier : String)
    (h : identifier ∉ l.map Prod.fst) :
    (l.any fun kv => kv.1 = identifier) = false := by
  rw [List.any_eq_false]
  intro kv hkv
  simp only [decide_eq_true_eq]
  intro heq
  exact h (List.mem_map.mpr ⟨kv, hkv, heq⟩)

/-- Folding `loadStep` over documents whose parsed identifiers are fresh and
mutually distinct appends one binding per parsed document and counts one error
per unparsable document. -/
theorem loadStep_foldl_spec (docs : List (Option ProcessedEpisode)) (acc : EpisodeState × Nat)
    (h : ((acc.1.episodes.map Prod.fst) ++
      ((docs.filterMap id).map ProcessedEpisode.archive_identifier)).Nodup) :
    (docs.foldl loadStep acc).1.episodes =
      acc.1.episodes ++ (docs.filterMap id).map (fun ep => (ep.archive_identifier, ep))
    ∧ (docs.foldl loadStep acc).2 = acc.2 + docs.countP (fun d => d.isNone) := by
  induction docs generalizing acc with
  | nil => simp
  | cons doc rest ih =>
      cases doc with
      | none =>
          have hrec := ih (acc.1, acc.2 + 1) (by simpa using h)
          simp only [List.foldl_cons, loadStep] at hrec ⊢
          refine ⟨by simpa using hrec.1, ?_⟩
          rw [hrec.2]
          simp [List.countP_cons]
          omega
      | some episode =>
          have hmem : episode.archive_identifier ∉ acc.1.episodes.map Prod.fst := by
            intro hin
            rw [List.nodup_append] at h
            exact h.2.2 hin (by simp)
          have hadd : acc.1.add_episode episode =
              ⟨acc.1.episodes ++ [(episode.archive_identifier, episode)]⟩ := by
            rw [EpisodeState.add_episode,
              if_neg (by simp [any_key_eq_false_of_not_mem _ _ hmem])]
          have hnd : (((acc.1.episodes ++
              [(episode.archive_identifier, episode)]).map Prod.fst) ++
              ((rest.filterMap id).map ProcessedEpisode.archive_identifier)).Nodup := by
            simpa [List.append_assoc] using h
          have hrec := ih (⟨acc.1.episodes ++ [(episode.archive_identifier, episode)]⟩,
            acc.2) hnd
          simp only [List.foldl_cons, loadStep, hadd] at hrec ⊢
          refine ⟨?_, by simpa [List.countP_cons] using hrec.2⟩
          rw [hrec.1]
          simp [List.append_assoc]

end LoadLemmas

/-- Claim C7: `load_from_directory` tolerates partial corruption. Over any list
of documents whose successfully parsed records carry distinct identifiers, the
load returns exactly the parsed records (one binding per parsed document, in
order), logs one error per malformed document, and is total — a bad file never
aborts the load. -/
theorem load_from_directory_partial_corruption (docs : List (Option ProcessedEpisode))
    (h : ((docs.filterMap id).map ProcessedEpisode.archive_identifier).Nodup) :
    (EpisodeState.load_from_directory docs).1.episodes =
      (docs.filterMap id).map (fun ep => (ep.archive_identifier, ep))
    ∧ (EpisodeState.load_from_directory docs).1.episodes.length = (docs.filterMap id).length
    ∧ (EpisodeState.load_from_directory docs).2 = docs.countP (fun d => d.isNone) := by
  have hspec := loadStep_foldl_spec docs (⟨[]⟩, 0) (by simpa using h)
  rw [load_from_directory_eq_foldl]
  refine ⟨by simpa using hspec.1, ?_, by simpa using hspec.2⟩
  rw [hspec.1]
  simp

/-- Ten well-formed documents with distinct identifiers followed by one
malformed document. -/
def docsExample : List (Option ProcessedEpisode) :=
  [some (ProcessedEpisode.fresh "e01" "T" "2004-01-01" "t"),
   some (ProcessedEpisode.fresh "e02" "T" "2004-01-02" "t"),
   some (ProcessedEpisode.fresh "e03" "T" "2004-01-03" "t"),
   some (ProcessedEpisode.fresh "e04" "T" "2004-01-04" "t"),
   some (ProcessedEpisode.fresh "e05" "T" "2004-01-05" "t"),
   some (ProcessedEpisode.fresh "e06" "T" "2004-01-06" "t"),
   some (ProcessedEpisode.fresh "e07" "T" "2004-01-07" "t"),
   some (ProcessedEpisode.fresh "e08" "T" "2004-01-08" "t"),
   some (ProcessedEpisode.fresh "e09" "T" "2004-01-09" "t"),
   some (ProcessedEpisode.fresh "e10" "T" "2004-01-10" "t"),
   none]

/-- Witness for claim C7: on ten valid documents and one malformed document the
load returns exactly ten records and logs one error. -/
theorem load_from_directory_partial_corruption_witness :
    ((docsExample.filterMap id).map ProcessedEpisode.archive_identifier).Nodup
    ∧ (EpisodeState.load_from_directory docsExample).1.episodes.length = 10
    ∧ (EpisodeState.load_from_directory docsExample).2 = 1 := by
  have hnd : ((docsExample.filterMap id).map ProcessedEpisode.archive_identifier).Nodup := by
    decide
  have hspec := load_from_directory_partial_corruption docsExample hnd
  exact ⟨hnd, hspec.2.1.trans rfl, hspec.2.2.trans rfl⟩

/-- The enum constructor inverts `.value`. -/
theorem ProcessingStage.ofValue_value (s : ProcessingStage) :
    ProcessingStage.ofValue s.value = some s := by
  cases s <;> rfl

/-- The truthiness guard is the identity away from the empty string. -/
theorem optTruthy_eq_self (o : Option String) (h : o ≠ some "") : optTruthy o = o := by
  cases o with
  | none => rfl
  | some s =>
      have hs : s ≠ "" := fun he => h (by rw [he])
      simp [optTruthy, hs]

/-- Claim C8: crash-safe save/load round-trip. Serializing any pipeline record
with `to_yaml_dict` and parsing the document back with `from_yaml_dict` (a save
followed by a fresh load after a restart) succeeds and returns a record whose
stage, identifying fields (`archive_identifier`, `title`, `date`) and artifact
paths all equal those of the record saved. (Path strings are never empty, per
the `pathlib` model.) -/
theorem yaml_roundtrip (ep : ProcessedEpisode)
    (ha : ep.audio_file ≠ some "") (hv : ep.video_file ≠ some "")
    (ht : ep.transcript_file ≠ some "") (hn : ep.thumbnail_file ≠ some "") :
    ∃ ep1, ProcessedEpisode.from_yaml_dict ep.to_yaml_dict = some ep1
      ∧ ep1.stage = ep.stage
      ∧ ep1.archive_identifier = ep.archive_identifier
      ∧ ep1.title = ep.title
      ∧ ep1.date = ep.date
      ∧ ep1.audio_file = ep.audio_file
      ∧ ep1.video_file = ep.video_file
      ∧ ep1.transcript_file = ep.transcript_file
      ∧ ep1.thumbnail_file = ep.thumbnail_file := by
  simp only [ProcessedEpisode.to_yaml_dict, ProcessedEpisode.from_yaml_dict,
    ProcessingStage.ofValue_value]
  exact ⟨_, rfl, rfl, rfl, rfl, rfl, optTruthy_eq_self _ ha, optTruthy_eq_self _ hv,
    optTruthy_eq_self _ ht, optTruthy_eq_self _ hn⟩

/-- Witness for claim C8: the downloaded example record round-trips through
`to_yaml_dict` and `from_yaml_dict` with its stage, identity and artifact
paths intact. -/
theorem yaml_roundtrip_witness :
    epDownloaded.audio_file ≠ some ""
    ∧ ∃ ep1, ProcessedEpisode.from_yaml_dict epDownloaded.to_yaml_dict = some ep1
      ∧ ep1.stage = epDownloaded.stage
      ∧ ep1.archive_identifier = epDownloaded.archive_identifier
      ∧ ep1.title = epDownloaded.title
      ∧ ep1.date = epDownloaded.date
      ∧ ep1.audio_file = epDownloaded.audio_file
      ∧ ep1.video_file = epDownloaded.video_file
      ∧ ep1.transcript_file = epDownloaded.transcript_file
      ∧ ep1.thumbnail_file = epDownloaded.thumbnail_file :=
  ⟨by decide,
   yaml_roundtrip epDownloaded (by decide) (by decide) (by decide) (by decide)⟩

/-- The spec scenario store: one archive episode registered into an empty
store, marked downloaded, then marked failed. -/
def scenarioAfterFailure (ae : ArchiveOrgEpisode) (now file_path fnow fmsg : String) :
    StateManager :=
  (((StateManager.empty.register_episode ae now).mark_downloaded ae.identifier
      file_path).state.mark_failed ae.identifier fnow fmsg).state

/-- Claim C9: statistics correctness. In every store, `pending_downloads`
equals the number of DISCOVERED records, `pending_conversions` the number of
DOWNLOADED records and `pending_uploads` the number of CONVERTED records; and
for a store containing exactly one record that was registered, marked
downloaded, then marked failed, `get_statistics` reports `discovered = 0`,
`downloaded = 0` and `failed = 1`. -/
theorem get_statistics_correct (sm : StateManager) (ae : ArchiveOrgEpisode)
    (now file_path fnow fmsg : String) :
    sm.get_statistics.pending_downloads =
      (sm.episode_state.get_episodes_by_stage ProcessingStage.DISCOVERED).length
    ∧ sm.get_statistics.pending_conversions =
      (sm.episode_state.get_episodes_by_stage ProcessingStage.DOWNLOADED).length
    ∧ sm.get_statistics.pending_uploads =
      (sm.episode_state.get_episodes_by_stage ProcessingStage.CONVERTED).length
    ∧ (scenarioAfterFailure ae now file_path fnow fmsg).get_statistics.discovered = 0
    ∧ (scenarioAfterFailure ae now file_path fnow fmsg).get_statistics.downloaded = 0
    ∧ (scenarioAfterFailure ae now file_path fnow fmsg).get_statistics.failed = 1 := by
  refine ⟨rfl, rfl, rfl, ?_, ?_, ?_⟩ <;>
    simp [scenarioAfterFailure, StateManager.register_episode, StateManager.mark_downloaded,
      StateManager.mark_failed, StateManager.empty, StateManager.get_statistics,
      EpisodeState.get_episode, EpisodeState.add_episode, EpisodeState.updateAt,
      EpisodeState.get_episodes_by_stage, ProcessedEpisode.fresh, ProcessedEpisode.add_error,
      ArchiveOrgState.add_episode, List.find?]

/-- A python slice `l[:n]` never yields more than `n` elements. -/
theorem take_length_le (l : List ProcessedEpisode) (n : Nat) : (l.take n).length ≤ n := by
  rw [List.length_take]
  exact min_le_left _ _

/-- Elements surviving a stage filter and a slice are at that stage. -/
theorem mem_take_filter_stage (l : List ProcessedEpisode) (st : ProcessingStage) (n : Nat)
    (ep : ProcessedEpisode) (h : ep ∈ (l.filter (fun e => e.stage = st)).take n) :
    ep.stage = st := by
  have h1 := List.take_subset n _ h
  rw [List.mem_filter] at h1
  exact of_decide_eq_true h1.2

/-- Claim C10: the `limit` argument of the pending queries is tested for
truthiness, not for being `None` — so `limit = 0` (falsy) skips the slice and
returns ALL episodes at the queried pending stage, while any positive `limit n`
returns at most `n` episodes, each at the queried stage. -/
theorem pending_query_limit (sm : StateManager) (n : Nat) (h : 0 < n) :
    sm.get_pending_downloads (some 0) none none =
      sm.episode_state.get_episodes_by_stage ProcessingStage.DISCOVERED
    ∧ sm.get_pending_conversions (some 0) =
      sm.episode_state.get_episodes_by_stage ProcessingStage.DOWNLOADED
    ∧ sm.get_pending_uploads (some 0) =
      sm.episode_state.get_episodes_by_stage ProcessingStage.CONVERTED
    ∧ (sm.get_pending_downloads (some n) none none).length ≤ n
    ∧ (∀ ep ∈ sm.get_pending_downloads (some n) none none,
        ep.stage = ProcessingStage.DISCOVERED)
    ∧ (sm.get_pending_conversions (some n)).length ≤ n
    ∧ (∀ ep ∈ sm.get_pending_conversions (some n), ep.stage = ProcessingStage.DOWNLOADED)
    ∧ (sm.get_pending_uploads (some n)).length ≤ n
    ∧ (∀ ep ∈ sm.get_pending_uploads (some n), ep.stage = ProcessingStage.CONVERTED) := by
  have hne : n ≠ 0 := Nat.pos_iff_ne_zero.mp h
  have htr : intTruthy (some n) = true := by simp [intTruthy, hne]
  have e1 : sm.get_pending_downloads (some n) none none =
      (sm.episode_state.get_episodes_by_stage ProcessingStage.DISCOVERED).take n := by
    simp [StateManager.get_pending_downloads, strTruthy, htr]
  have e2 : sm.get_pending_conversions (some n) =
      (sm.episode_state.get_episodes_by_stage ProcessingStage.DOWNLOADED).take n := by
    simp [StateManager.get_pending_conversions, htr]
  have e3 : sm.get_pending_uploads (some n) =
      (sm.episode_state.get_episodes_by_stage ProcessingStage.CONVERTED).take n := by
    simp [StateManager.get_pending_uploads, htr]
  refine ⟨rfl, rfl, rfl, ?_, ?_, ?_, ?_, ?_, ?_⟩
  · rw [e1]
    exact take_length_le _ n
  · intro ep hep
    rw [e1] at hep
    exact mem_take_filter_stage (sm.episode_state.episodes.map Prod.snd)
      ProcessingStage.DISCOVERED n ep
      (by simpa [EpisodeState.get_episodes_by_stage] using hep)
  · rw [e2]
    exact take_length_le _ n
  · intro ep hep
    rw [e2] at hep
    exact mem_take_filter_stage (sm.episode_state.episodes.map Prod.snd)
      ProcessingStage.DOWNLOADED n ep
      (by simpa [EpisodeState.get_episodes_by_stage] using hep)
  · rw [e3]
    exact take_length_le _ n
  · intro ep hep
    rw [e3] at hep
    exact mem_take_filter_stage (sm.episode_state.episodes.map Prod.snd)
      ProcessingStage.CONVERTED n ep
      (by simpa [EpisodeState.get_episodes_by_stage] using hep)

/-- Witness for claim C10: with `limit = 1` on the one-record store the
download query returns at most one episode. -/
theorem pending_query_limit_witness :
    0 < 1 ∧ (smOne.get_pending_downloads (some 1) none none).length ≤ 1 :=
  ⟨by decide, (pending_query_limit smOne 1 (by decide)).2.2.2.1⟩
